import Mathlib

/-!
# Verification of the bevy-rrise glue layer

A shallow embedding of the bevy-rrise plugin (src/lib.rs, src/plugin.rs,
src/emitter_listener.rs, src/sound_engine.rs): ECS components mirroring
transforms and lifecycle into the Wwise middleware, and the callback relay.

Conventions of the embedding:
* `f32` vector components are modelled as rationals; the only arithmetic the
  code performs on them (negating the z component, quaternion rotation) is
  exact, so no rounding is lost.
* Entity ids (`Entity::id()` as `u32`), `AkGameObjectID` (`u64`),
  `AkPlayingID` (`u32`) and the `AkCallbackType` bitmask (`u32`) are `Nat`;
  the `as AkGameObjectID` cast of a `u32` is the identity.
* Calls into the closed-source SDK are represented by an `Sdk` oracle giving
  each call's result, and each system returns the trace of `SdkCall`s it
  performed, in order.
-/

namespace BevyRrise

/-- A 3-component vector (`glam::Vec3`), components modelled as `ℚ`. -/
structure Vec3 where
  x : ℚ
  y : ℚ
  z : ℚ
deriving DecidableEq, Repr

/-- A quaternion (`glam::Quat`), components modelled as `ℚ`. -/
structure Quat where
  x : ℚ
  y : ℚ
  z : ℚ
  w : ℚ
deriving DecidableEq, Repr

/-- Cross product of two vectors, as used by `glam` to rotate by a quaternion. -/
def Vec3.cross (a b : Vec3) : Vec3 :=
  ⟨a.y * b.z - a.z * b.y, a.z * b.x - a.x * b.z, a.x * b.y - a.y * b.x⟩

/-- Componentwise sum. -/
def Vec3.add (a b : Vec3) : Vec3 :=
  ⟨a.x + b.x, a.y + b.y, a.z + b.z⟩

/-- Scalar multiple. -/
def Vec3.smul (k : ℚ) (a : Vec3) : Vec3 :=
  ⟨k * a.x, k * a.y, k * a.z⟩

/-- Rotation of a vector by a quaternion (`glam`'s `Quat * Vec3`):
`v + w * t + cross(q.xyz, t)` with `t = 2 * cross(q.xyz, v)`. -/
def Quat.mulVec3 (q : Quat) (v : Vec3) : Vec3 :=
  let qv : Vec3 := ⟨q.x, q.y, q.z⟩
  let t := Vec3.smul 2 (qv.cross v)
  (v.add (Vec3.smul q.w t)).add (qv.cross t)

/-- Embeds `bevy::prelude::Transform`: translation, rotation and scale. -/
structure Transform where
  translation : Vec3
  rotation : Quat
  scale : Vec3
deriving DecidableEq, Repr

/-- Embeds `Transform::local_z()`: the unit z axis rotated by `self.rotation`. -/
def Transform.local_z (t : Transform) : Vec3 :=
  t.rotation.mulVec3 ⟨0, 0, 1⟩

/-- Embeds `Transform::local_y()`: the unit y axis rotated by `self.rotation`. -/
def Transform.local_y (t : Transform) : Vec3 :=
  t.rotation.mulVec3 ⟨0, 1, 0⟩

/-- Embeds `Transform::forward()`, which is `-self.local_z()`. -/
def Transform.forward (t : Transform) : Vec3 :=
  let lz := t.local_z
  ⟨-lz.x, -lz.y, -lz.z⟩

/-- Embeds `Transform::up()`, which is `self.local_y()`. -/
def Transform.up (t : Transform) : Vec3 :=
  t.local_y

/-- Embeds `bevy::prelude::GlobalTransform` wraps an `Affine3A` matrix in the source;
its `translation()`, `forward()` and `up()` accessors go through
floating-point matrix columns and normalisation, so the embedding models a
`GlobalTransform` by the values those three accessors return (the only ones
`to_ak_transform` reads). -/
structure GlobalTransform where
  translation : Vec3
  forward : Vec3
  up : Vec3
deriving DecidableEq, Repr

/-- Embeds `rrise::AkTransform`: a position plus an orientation given by front and
top vectors. -/
structure AkTransform where
  position : Vec3
  orientationFront : Vec3
  orientationTop : Vec3
deriving DecidableEq, Repr

/-- Embeds `AkTransform::from_position`: the given position with Wwise's default
orientation (front `+z`, top `+y`). -/
def AkTransform.from_position (pos : Vec3) : AkTransform :=
  { position := pos, orientationFront := ⟨0, 0, 1⟩, orientationTop := ⟨0, 1, 0⟩ }

/-- Negate the z component of a vector, as the conversion does via
`arr[2] = -arr[2]` on `to_array()`. -/
def Vec3.negZ (v : Vec3) : Vec3 :=
  ⟨v.x, v.y, -v.z⟩

/-- Embeds `<Transform as ToAkTransform>::to_ak_transform` (src/lib.rs): position,
front and top are the translation, forward and up vectors with z negated. -/
def Transform.to_ak_transform (t : Transform) : AkTransform :=
  let pos := t.translation.negZ
  let ak_tfm := AkTransform.from_position pos
  let front := t.forward.negZ
  let ak_tfm := { ak_tfm with orientationFront := front }
  let up := t.up.negZ
  { ak_tfm with orientationTop := up }

/-- Embeds `<GlobalTransform as ToAkTransform>::to_ak_transform` (src/lib.rs). -/
def GlobalTransform.to_ak_transform (g : GlobalTransform) : AkTransform :=
  let pos := g.translation.negZ
  let ak_tfm := AkTransform.from_position pos
  let front := g.forward.negZ
  let ak_tfm := { ak_tfm with orientationFront := front }
  let up := g.up.negZ
  { ak_tfm with orientationTop := up }

/-! ## Middleware data model and callback channel -/

/-- Embeds `rrise::AkResult` error codes (the ones this development mentions by
name; `other` covers the rest of the enum). -/
inductive AkResult where
  | AK_Fail
  | AK_InsufficientMemory
  | AK_InvalidParameter
  | other (code : Nat)
deriving DecidableEq, Repr

/-- Embeds `rrise::AkID`: an event referenced by name or by numeric id. -/
inductive AkID where
  | Name (s : String)
  | ID (n : Nat)
deriving DecidableEq, Repr

/-- Embeds `AK_INVALID_PLAYING_ID` (0 in the Wwise SDK). -/
def AK_INVALID_PLAYING_ID : Nat := 0

/-- The `AK_EndOfEvent` bit of the `AkCallbackType` mask (0x0001). -/
def AK_EndOfEvent : Nat := 1

/-- Embeds `rrise::AkCallbackInfo`: the payload handed to posted-event callbacks.
Only the `Event` variant's `playing_id` and `callback_type` fields are
inspected by this crate; the other variants are opaque to it. -/
inductive AkCallbackInfo where
  | Event (game_obj_id : Nat) (playing_id : Nat) (callback_type : Nat)
  | Other (tag : Nat)
deriving DecidableEq, Repr

/-- Embeds `bevy_rrise::AkCallbackEvent` (src/lib.rs): newtype around
`AkCallbackInfo` sent into Bevy's event stream. -/
structure AkCallbackEvent where
  info : AkCallbackInfo
deriving DecidableEq, Repr

/-- Embeds `CallbackChannel` (src/plugin.rs): an unbounded crossbeam channel whose
`sender` and `receiver` ends share one FIFO queue, modelled as the list of
infos sent but not yet received (head = oldest). -/
structure CallbackChannel where
  queue : List AkCallbackInfo
deriving DecidableEq, Repr

/-- Embeds `CallbackChannel::new`: a fresh (empty) unbounded channel. -/
def CallbackChannel.new : CallbackChannel := ⟨[]⟩

/-- The single `CallbackChannel` resource inserted by `RrisePlugin::build`
(`insert_resource(CallbackChannel::new())`): `process_callbacks` and every
posting site clone this one resource, so they all share its queue. -/
def RrisePlugin.build_callback_channel : CallbackChannel := CallbackChannel.new

/-- The `while let Ok(cb_info) = callback_channel.receiver.try_recv()` loop
of `process_callbacks`: receives infos from the queue head until the channel
is empty, sending one `AkCallbackEvent` per info. -/
def process_callbacks_loop :
    List AkCallbackInfo → List AkCallbackEvent → List AkCallbackEvent
  | [], sent => sent
  | info :: rest, sent => process_callbacks_loop rest (sent ++ [⟨info⟩])

/-- Embeds `process_callbacks` (src/plugin.rs): drains the callback channel into
the ECS event stream. Returns the channel state and the event queue after
the system ran. -/
def process_callbacks (ch : CallbackChannel) (events : List AkCallbackEvent) :
    CallbackChannel × List AkCallbackEvent :=
  (⟨[]⟩, process_callbacks_loop ch.queue events)

/-! ## Components, SDK calls and the per-frame systems -/

/-- Embeds `RrEmitter` (src/emitter_listener.rs): sound emitter configuration.
`playing_ids` models the contents of the `Arc<RwLock<Vec<AkPlayingID>>>`;
`entity` is `Some` of the entity's numeric id once `init_new_rr_objects`
has seen the component. -/
structure RrEmitter where
  event_id : AkID
  flags : Nat
  auto_post : Bool
  despawn_on_silent : Bool
  playing_ids : List Nat
  entity : Option Nat
deriving DecidableEq, Repr

/-- Embeds `RrEmitter::default()`: empty event name, zero flags, no auto post, no
despawn on silent, empty playing ids, not registered. -/
def RrEmitter.default : RrEmitter :=
  { event_id := .Name "", flags := 0, auto_post := false,
    despawn_on_silent := false, playing_ids := [], entity := none }

/-- Embeds `RrListener` (src/emitter_listener.rs). -/
structure RrListener where
  is_default : Bool
  entity : Option Nat
deriving DecidableEq, Repr

/-- A call into the Wwise SDK, as recorded in a system's trace.
`registerObj` is `register_named_game_obj` (the `not(wwrelease)` build this
embedding follows); `registerGameObj` is the unnamed `register_game_obj`. -/
inductive SdkCall where
  | registerObj (id : Nat) (name : String)
  | registerGameObj (id : Nat)
  | addDefaultListener (id : Nat)
  | setPosition (id : Nat) (tfm : AkTransform)
  | postEvent (id : Nat) (event : AkID) (flags : Nat)
  | stopAll (target : Option Nat)
  | unregisterObj (id : Nat)
deriving DecidableEq, Repr

/-- The game object id a call addresses (`stop_all None` addresses all). -/
def SdkCall.gameObj : SdkCall → Option Nat
  | .registerObj id _ => some id
  | .registerGameObj id => some id
  | .addDefaultListener id => some id
  | .setPosition id _ => some id
  | .postEvent id _ _ => some id
  | .stopAll t => t
  | .unregisterObj id => some id

/-- The SDK oracle: the result each kind of call would return for a given
game object id (`none` means success for unit-returning calls). The real
results come from the closed-source middleware. -/
structure Sdk where
  register_result : Nat → Option AkResult
  add_listener_result : Nat → Option AkResult
  set_position_result : Nat → Option AkResult
  post_result : Nat → Except AkResult Nat

/-- Result of `RrEmitter::post_event`: the returned `AkPlayingID`, the
emitter's `playing_ids` after the call, and the SDK calls made. -/
structure PostOutcome where
  ret : Nat
  playing_ids : List Nat
  calls : List SdkCall
deriving DecidableEq, Repr

/-- Embeds `RrEmitter::post_event` (src/emitter_listener.rs). If `self.entity` is
`None` it logs an error and returns `AK_INVALID_PLAYING_ID` without touching
the SDK. Otherwise it posts through `post_event_internal!`, which always
adds `AK_EndOfEvent` to the posted flags; when callbacks are requested
(`flags.0 > 0`) but no channel is given, the requested flags are replaced by
`AkCallbackType(0)` (with a warning). On SDK success the returned playing id
is pushed onto `playing_ids` and returned; on SDK error the error is logged
and `AK_INVALID_PLAYING_ID` returned with `playing_ids` untouched. -/
def RrEmitter.post_event (rr : RrEmitter) (event : AkID) (flags : Nat)
    (cb_channel : Option CallbackChannel) (sdk_post : Except AkResult Nat) :
    PostOutcome :=
  match rr.entity with
  | none => ⟨AK_INVALID_PLAYING_ID, rr.playing_ids, []⟩
  | some entity =>
    let posted_flags :=
      if 0 < flags ∧ cb_channel.isNone then 0 ||| AK_EndOfEvent
      else flags ||| AK_EndOfEvent
    match sdk_post with
    | .ok playing_id =>
        ⟨playing_id, rr.playing_ids ++ [playing_id],
          [.postEvent entity event posted_flags]⟩
    | .error _ =>
        ⟨AK_INVALID_PLAYING_ID, rr.playing_ids,
          [.postEvent entity event posted_flags]⟩

/-- Embeds `RrEmitter::post_associated_event`: posts `self.event_id` with
`self.flags`. -/
def RrEmitter.post_associated_event (rr : RrEmitter)
    (cb_channel : Option CallbackChannel) (sdk_post : Except AkResult Nat) :
    PostOutcome :=
  rr.post_event rr.event_id rr.flags cb_channel sdk_post

/-- Embeds `RrEmitter::is_playing`: whether any events are playing. -/
def RrEmitter.is_playing (rr : RrEmitter) : Bool :=
  !rr.playing_ids.isEmpty

/-- Embeds `RrEmitter::is_registered`. -/
def RrEmitter.is_registered (rr : RrEmitter) : Bool :=
  rr.entity.isSome

/-- Embeds `RrEmitter::stop`: `stop_all` on the registered entity id, or nothing
when unregistered. -/
def RrEmitter.stop (rr : RrEmitter) : List SdkCall :=
  match rr.entity with
  | some entity => [.stopAll (some entity)]
  | none => []

/-- The id-bookkeeping part of the callback closure `post_event_internal!`
registers with the SDK: on an `Event` callback whose `callback_type` is
exactly `AK_EndOfEvent`, retain in `playing_ids` only the ids different from
the callback's `playing_id` (the channel-relay variant first forwards the
info to the `CallbackChannel`, then runs this same bookkeeping). -/
def end_of_event_callback (playing_ids : List Nat) (cb_info : AkCallbackInfo) :
    List Nat :=
  match cb_info with
  | .Event _ playing_id callback_type =>
      if callback_type = AK_EndOfEvent then
        playing_ids.filter (fun p_id => p_id ≠ playing_id)
      else playing_ids
  | _ => playing_ids

/-- A listener row of the `Added<RrListener>` query in
`init_new_rr_objects`: entity id, optional `Name` component, the component,
and its `GlobalTransform`. -/
structure ListenerRow where
  entity : Nat
  name : Option String
  rr : RrListener
  tfm : GlobalTransform
deriving DecidableEq, Repr

/-- An emitter row of the `Added<RrEmitter>` query in
`init_new_rr_objects`. -/
structure EmitterRow where
  entity : Nat
  name : Option String
  rr : RrEmitter
  tfm : GlobalTransform
deriving DecidableEq, Repr

/-- One iteration of the listener loop of `init_new_rr_objects`: set
`rr.entity` to the entity, register the game object under the entity id
(named after the `Name` component, else `RrListener_{id}`), on success add
it as a default listener when `is_default`, then set its position; an SDK
error at any step logs and `continue`s, skipping the `RrRegistered`
insertion. Returns the SDK calls made, the updated component, and whether
`RrRegistered` was inserted. -/
def init_listener (sdk : Sdk) (row : ListenerRow) :
    List SdkCall × RrListener × Bool :=
  let rr : RrListener := { row.rr with entity := some row.entity }
  let id := row.entity
  let name := row.name.getD ("RrListener_" ++ toString row.entity)
  match sdk.register_result id with
  | some _ => ([.registerObj id name], rr, false)
  | none =>
    if rr.is_default then
      match sdk.add_listener_result id with
      | some _ => ([.registerObj id name, .addDefaultListener id], rr, false)
      | none =>
        match sdk.set_position_result id with
        | some _ =>
            ([.registerObj id name, .addDefaultListener id,
              .setPosition id row.tfm.to_ak_transform], rr, false)
        | none =>
            ([.registerObj id name, .addDefaultListener id,
              .setPosition id row.tfm.to_ak_transform], rr, true)
    else
      match sdk.set_position_result id with
      | some _ =>
          ([.registerObj id name, .setPosition id row.tfm.to_ak_transform],
            rr, false)
      | none =>
          ([.registerObj id name, .setPosition id row.tfm.to_ak_transform],
            rr, true)

/-- One iteration of the emitter loop of `init_new_rr_objects`: set
`rr.entity`, register under the entity id (named after `Name`, else
`RrEmitter_{id}`), set the position, then when `auto_post` holds call
`post_associated_event(Some(cb_channel))` (whose own failure does not stop
registration); an SDK error in registration or positioning logs and
`continue`s, skipping the `RrRegistered` insertion. -/
def init_emitter (sdk : Sdk) (cb_channel : CallbackChannel) (row : EmitterRow) :
    List SdkCall × RrEmitter × Bool :=
  let rr : RrEmitter := { row.rr with entity := some row.entity }
  let id := row.entity
  let name := row.name.getD ("RrEmitter_" ++ toString row.entity)
  match sdk.register_result id with
  | some _ => ([.registerObj id name], rr, false)
  | none =>
    match sdk.set_position_result id with
    | some _ =>
        ([.registerObj id name, .setPosition id row.tfm.to_ak_transform],
          rr, false)
    | none =>
      if rr.auto_post then
        let out := rr.post_associated_event (some cb_channel) (sdk.post_result id)
        ([.registerObj id name, .setPosition id row.tfm.to_ak_transform]
            ++ out.calls,
          { rr with playing_ids := out.playing_ids }, true)
      else
        ([.registerObj id name, .setPosition id row.tfm.to_ak_transform],
          rr, true)

/-- Result of `init_new_rr_objects`: the SDK call trace, the updated
components paired with whether their entity got the `RrRegistered` marker,
and the system's `Result` (always `Ok(())`: per-entity errors are logged and
skipped, never returned). -/
structure InitOutcome where
  trace : List SdkCall
  listeners : List (RrListener × Bool)
  emitters : List (RrEmitter × Bool)
  result : Except AkResult Unit

/-- Embeds `init_new_rr_objects` (src/emitter_listener.rs): processes every newly
added listener first — "Always register listeners first" — then every newly
added emitter. -/
def init_new_rr_objects (sdk : Sdk) (cb_channel : CallbackChannel)
    (listeners : List ListenerRow) (emitters : List EmitterRow) : InitOutcome :=
  let ls := listeners.map (init_listener sdk)
  let es := emitters.map (init_emitter sdk cb_channel)
  { trace := (ls.map (·.1)).flatten ++ (es.map (·.1)).flatten
    listeners := ls.map (·.2)
    emitters := es.map (·.2)
    result := .ok () }

/-- Embeds `stop_destroyed_emitters` (src/emitter_listener.rs): `stop_all` on each
entity whose `RrEmitter` component was removed; always returns `Ok(())`. -/
def stop_destroyed_emitters (removed : List Nat) :
    List SdkCall × Except AkResult Unit :=
  (removed.map (fun e => .stopAll (some e)), .ok ())

/-- A spawned emitter entity as seen by `despawn_silent_emitters`: its
`RrEmitter` component and whether it bears the `RrRegistered` marker (the
query filters on `With<RrRegistered>`). -/
structure EmitterEntityRow where
  rr : RrEmitter
  registered : Bool
deriving DecidableEq, Repr

/-- Embeds `despawn_silent_emitters` (src/emitter_listener.rs): over the emitters
bearing `RrRegistered`, despawn (`rr.entity.unwrap()`) exactly those with
`despawn_on_silent` set whose `playing_ids` is empty. Returns the despawned
entity ids. -/
def despawn_silent_emitters (world : List EmitterEntityRow) : List Nat :=
  ((world.filter (·.registered)).map (·.rr)).filterMap
    (fun rr =>
      if rr.despawn_on_silent && rr.playing_ids.isEmpty then
        some (rr.entity.getD 0)
      else none)

/-- A row of the changed-transform queries of `update_rr_position`: the
entity id stored in the component (`rr.entity.unwrap()`), whether the entity
bears `RrRegistered`, whether its `GlobalTransform` changed since the
system's last run, and that transform. -/
structure PositionRow where
  entity : Nat
  registered : Bool
  changed : Bool
  tfm : GlobalTransform
deriving DecidableEq, Repr

/-- One `for` loop of `update_rr_position`: `set_position` for each queried
row in order; a failing call returns its error immediately through the `?`
operator, dropping the remaining rows. -/
def update_rr_position_loop (sdk : Sdk) :
    List PositionRow → List SdkCall × Except AkResult Unit
  | [] => ([], .ok ())
  | row :: rest =>
    let call := SdkCall.setPosition row.entity row.tfm.to_ak_transform
    match sdk.set_position_result row.entity with
    | some akr => ([call], .error akr)
    | none =>
      let out := update_rr_position_loop sdk rest
      (call :: out.1, out.2)

/-- Embeds `update_rr_position` (src/emitter_listener.rs): iterates the registered
emitters whose `GlobalTransform` changed, then the registered listeners
whose `GlobalTransform` changed, calling `set_position` with the converted
transform; the first SDK error aborts the whole system via `?`. -/
def update_rr_position (sdk : Sdk) (emitters listeners : List PositionRow) :
    List SdkCall × Except AkResult Unit :=
  let equery := emitters.filter (fun r => r.registered && r.changed)
  let lquery := listeners.filter (fun r => r.registered && r.changed)
  let eout := update_rr_position_loop sdk equery
  match eout.2 with
  | .error akr => (eout.1, .error akr)
  | .ok _ =>
    let lout := update_rr_position_loop sdk lquery
    (eout.1 ++ lout.1, lout.2)

/-- Embeds `error_handler` (src/plugin.rs): the `.pipe(error_handler)` adapter every
piped system ends in; it logs the returned `AkResult` unchanged and does
nothing else. Returns the error it logged, if any. -/
def error_handler (result : Except AkResult Unit) : Option AkResult :=
  match result with
  | .error akr => some akr
  | .ok _ => none

/-- Embeds `PostEventAtLocation` (src/sound_engine.rs): fire-and-forget posting at a
location. `flags` is the mask accumulated on the inner `PostEvent` builder;
`has_flags` the struct's own record of whether a non-zero mask was set;
`tmp_id` the temporary game object id derived from a stack address; `at` the
already-converted (`to_ak_transform`) location. -/
structure PostEventAtLocation where
  event_id : AkID
  flags : Nat
  has_flags : Bool
  tmp_id : Nat
  at_tfm : AkTransform
deriving DecidableEq, Repr

/-- Embeds `PostEventAtLocation::new`: no flags yet. -/
def PostEventAtLocation.new (event_id : AkID) (tmp_id : Nat) (at_tfm : AkTransform) :
    PostEventAtLocation :=
  { event_id := event_id, flags := 0, has_flags := false, tmp_id := tmp_id,
    at_tfm := at_tfm }

/-- Embeds `PostEventAtLocation::flags`: replace the inner mask. -/
def PostEventAtLocation.withFlags (s : PostEventAtLocation) (flags : Nat) :
    PostEventAtLocation :=
  { s with has_flags := decide (0 < flags), flags := flags }

/-- Embeds `PostEventAtLocation::add_flags`: `or` the mask into the inner builder. -/
def PostEventAtLocation.add_flags (s : PostEventAtLocation) (flags : Nat) :
    PostEventAtLocation :=
  { s with has_flags := decide (0 < flags), flags := s.flags ||| flags }

/-- Embeds `PostEventAtLocation::post` (src/sound_engine.rs): register the temporary
game object, set its position (both propagate failure via `?`), post the
inner event — in all three `(has_flags, cb_channel)` branches with the
accumulated flags unchanged (no `AK_EndOfEvent` is added; with a channel the
callback relays infos into it) — then unregister the temporary object, a
failure of which is only logged. Returns the calls made and the post
result. -/
def PostEventAtLocation.post (s : PostEventAtLocation)
    (cb_channel : Option CallbackChannel) (sdk : Sdk) :
    List SdkCall × Except AkResult Nat :=
  match sdk.register_result s.tmp_id with
  | some akr => ([.registerGameObj s.tmp_id], .error akr)
  | none =>
    match sdk.set_position_result s.tmp_id with
    | some akr =>
        ([.registerGameObj s.tmp_id, .setPosition s.tmp_id s.at_tfm], .error akr)
    | none =>
        ([.registerGameObj s.tmp_id, .setPosition s.tmp_id s.at_tfm,
          .postEvent s.tmp_id s.event_id s.flags, .unregisterObj s.tmp_id],
          sdk.post_result s.tmp_id)

/-- An interaction with one emitter's `playing_ids` bookkeeping: a call to
`post_event` (with the SDK's result for it) or the SDK invoking the
registered callback closure. -/
inductive EmitterAction where
  | post (sdk_result : Except AkResult Nat)
  | callback (cb_info : AkCallbackInfo)
deriving Repr

/-- How one action transforms `playing_ids`: a post through
`RrEmitter::post_event` on the registered entity `e`, or the
`post_event_internal!` callback closure firing. -/
def playing_ids_step (e : Nat) (event : AkID) (flags : Nat)
    (cb_channel : Option CallbackChannel) (ids : List Nat) :
    EmitterAction → List Nat
  | .post r =>
      (RrEmitter.post_event
        { RrEmitter.default with playing_ids := ids, entity := some e }
        event flags cb_channel r).playing_ids
  | .callback info => end_of_event_callback ids info

/-- The `playing_ids` of an emitter that started with `RrEmitter::default()`
(empty list) after a trace of posts and callbacks. -/
def run_playing_ids (e : Nat) (event : AkID) (flags : Nat)
    (cb_channel : Option CallbackChannel) (tr : List EmitterAction) : List Nat :=
  tr.foldl (playing_ids_step e event flags cb_channel)
    RrEmitter.default.playing_ids

/-- The playing id an action concerns: a successful post's returned id, or
an `AK_EndOfEvent` `Event` callback's `playing_id`; failed posts and other
callbacks touch no id. -/
def action_playing_id : EmitterAction → Option Nat
  | .post (.ok p) => some p
  | .post (.error _) => none
  | .callback (.Event _ p t) => if t = AK_EndOfEvent then some p else none
  | .callback _ => none

/-- Whether an action is a successful post. -/
def is_ok_post : EmitterAction → Bool
  | .post (.ok _) => true
  | _ => false

/-- The last action of a trace that concerns playing id `p`, if any. -/
def last_touch : List EmitterAction → Nat → Option EmitterAction
  | [], _ => none
  | a :: tr, p =>
    match last_touch tr p with
    | some b => some b
    | none => if action_playing_id a = some p then some a else none

/-! ## Concrete fixtures for witnesses and counterexamples -/

/-- An SDK oracle on which every call succeeds. -/
def sdk_ok : Sdk :=
  ⟨fun _ => none, fun _ => none, fun _ => none, fun _ => .ok 1⟩

/-- An SDK oracle on which every registration and post fails with `AK_Fail`
while positioning succeeds. -/
def sdk_register_fails : Sdk :=
  ⟨fun _ => some .AK_Fail, fun _ => none, fun _ => none,
    fun _ => .error .AK_Fail⟩

/-- An SDK oracle whose `set_position` fails with `AK_Fail` for game object
1 only. -/
def sdk_set_position_fails_on_1 : Sdk :=
  ⟨fun _ => none, fun _ => none,
    fun id => if id = 1 then some .AK_Fail else none, fun _ => .ok 1⟩

/-- A sample global transform at the origin with the default orientation. -/
def tfm0 : GlobalTransform :=
  ⟨⟨0, 0, 0⟩, ⟨0, 0, -1⟩, ⟨0, 1, 0⟩⟩

/-- A sample default listener on entity 1. -/
def listener_row_ex : ListenerRow :=
  ⟨1, none, ⟨true, none⟩, tfm0⟩

/-- A sample auto-post emitter on entity 2. -/
def emitter_row_ex : EmitterRow :=
  ⟨2, none,
    { RrEmitter.default with event_id := .ID 7, auto_post := true }, tfm0⟩

/-- A registered, changed position row on entity 1. -/
def position_row_1 : PositionRow := ⟨1, true, true, tfm0⟩

/-- A registered, changed position row on entity 2. -/
def position_row_2 : PositionRow := ⟨2, true, true, tfm0⟩

/-! ## Theorems -/

/-- The receive loop appends one event per queued info, preserving order. -/
theorem process_callbacks_loop_eq (q : List AkCallbackInfo)
    (sent : List AkCallbackEvent) :
    process_callbacks_loop q sent = sent ++ q.map AkCallbackEvent.mk := by
  induction q generalizing sent with
  | nil => simp [process_callbacks_loop]
  | cons info rest ih => simp [process_callbacks_loop, ih]

/-- C1: for every Bevy `Transform` and every `GlobalTransform`,
`to_ak_transform` returns an `AkTransform` whose `position`,
`orientationFront` and `orientationTop` are the input's translation, forward
vector and up vector with the z component negated and the x and y components
unchanged. -/
theorem toAkTransform_negates_z (t : Transform) (g : GlobalTransform) :
    (t.to_ak_transform.position.x = t.translation.x ∧
      t.to_ak_transform.position.y = t.translation.y ∧
      t.to_ak_transform.position.z = -t.translation.z) ∧
    (t.to_ak_transform.orientationFront.x = t.forward.x ∧
      t.to_ak_transform.orientationFront.y = t.forward.y ∧
      t.to_ak_transform.orientationFront.z = -t.forward.z) ∧
    (t.to_ak_transform.orientationTop.x = t.up.x ∧
      t.to_ak_transform.orientationTop.y = t.up.y ∧
      t.to_ak_transform.orientationTop.z = -t.up.z) ∧
    (g.to_ak_transform.position.x = g.translation.x ∧
      g.to_ak_transform.position.y = g.translation.y ∧
      g.to_ak_transform.position.z = -g.translation.z) ∧
    (g.to_ak_transform.orientationFront.x = g.forward.x ∧
      g.to_ak_transform.orientationFront.y = g.forward.y ∧
      g.to_ak_transform.orientationFront.z = -g.forward.z) ∧
    (g.to_ak_transform.orientationTop.x = g.up.x ∧
      g.to_ak_transform.orientationTop.y = g.up.y ∧
      g.to_ak_transform.orientationTop.z = -g.up.z) := by
  refine ⟨⟨rfl, rfl, rfl⟩, ⟨rfl, rfl, rfl⟩, ⟨rfl, rfl, rfl⟩,
    ⟨rfl, rfl, rfl⟩, ⟨rfl, rfl, rfl⟩, ⟨rfl, rfl, rfl⟩⟩

/-- C2: each frame, `process_callbacks` drains the callback channel's
receiver completely and sends into the ECS event stream exactly one
`AkCallbackEvent` per received `AkCallbackInfo`, preserving the channel's
reception order; the channel it reads is the single unbounded channel the
plugin build inserted, created empty by `CallbackChannel::new`. -/
theorem process_callbacks_forwards_all (ch : CallbackChannel)
    (events : List AkCallbackEvent) :
    process_callbacks ch events =
      (⟨[]⟩, events ++ ch.queue.map AkCallbackEvent.mk) ∧
    RrisePlugin.build_callback_channel = CallbackChannel.new ∧
    CallbackChannel.new.queue = [] := by
  refine ⟨?_, rfl, rfl⟩
  unfold process_callbacks
  rw [process_callbacks_loop_eq]

/-- C3: among emitters the registration system has registered (they bear
`RrRegistered`, and their `entity` field is set), `despawn_silent_emitters`
despawns an entity exactly when its emitter has `despawn_on_silent` set and
its `playing_ids` list is empty; emitters with `despawn_on_silent` false,
with playing events, or without the `RrRegistered` marker are never
despawned by this system. -/
theorem despawn_silent_emitters_spec (world : List EmitterEntityRow)
    (hreg : ∀ row ∈ world, row.registered = true → row.rr.entity.isSome = true)
    (e : Nat) :
    e ∈ despawn_silent_emitters world ↔
      ∃ row ∈ world, row.registered = true ∧ row.rr.entity = some e ∧
        row.rr.despawn_on_silent = true ∧ row.rr.playing_ids = [] := by
  unfold despawn_silent_emitters
  rw [List.mem_filterMap]
  constructor
  · rintro ⟨rr, hrr, hif⟩
    rw [List.mem_map] at hrr
    obtain ⟨row, hrow, rfl⟩ := hrr
    rw [List.mem_filter] at hrow
    obtain ⟨hrow, hregb⟩ := hrow
    by_cases hc : (row.rr.despawn_on_silent && row.rr.playing_ids.isEmpty) = true
    · rw [if_pos hc] at hif
      obtain ⟨hd, hids⟩ := Bool.and_eq_true_iff.mp hc
      have hs := hreg row hrow hregb
      obtain ⟨x, hx⟩ := Option.isSome_iff_exists.mp hs
      refine ⟨row, hrow, hregb, ?_, hd, List.isEmpty_iff.mp hids⟩
      rw [hx] at hif ⊢
      simpa using hif
    · rw [if_neg hc] at hif
      exact absurd hif (by simp)
  · rintro ⟨row, hrow, hregb, hent, hd, hids⟩
    refine ⟨row.rr, List.mem_map.mpr ⟨row, List.mem_filter.mpr ⟨hrow, hregb⟩, rfl⟩, ?_⟩
    rw [if_pos (by simp [hd, hids])]
    simp [hent]

/-- C8: `RrEmitter::post_event` on an unregistered emitter (`entity` is
`None`) or with a failing SDK post returns `AK_INVALID_PLAYING_ID` and
leaves `playing_ids` unchanged; on a successful post the SDK's playing id is
appended to `playing_ids` and that (non-invalid) id is returned. -/
theorem post_event_result_spec (rr : RrEmitter) (event : AkID) (flags : Nat)
    (cb : Option CallbackChannel) (sdk_post : Except AkResult Nat) :
    (rr.entity = none →
      (rr.post_event event flags cb sdk_post).ret = AK_INVALID_PLAYING_ID ∧
      (rr.post_event event flags cb sdk_post).playing_ids = rr.playing_ids) ∧
    (∀ akr, sdk_post = .error akr →
      (rr.post_event event flags cb sdk_post).ret = AK_INVALID_PLAYING_ID ∧
      (rr.post_event event flags cb sdk_post).playing_ids = rr.playing_ids) ∧
    (∀ p e, rr.entity = some e → sdk_post = .ok p → p ≠ AK_INVALID_PLAYING_ID →
      (rr.post_event event flags cb sdk_post).ret = p ∧
      (rr.post_event event flags cb sdk_post).ret ≠ AK_INVALID_PLAYING_ID ∧
      (rr.post_event event flags cb sdk_post).playing_ids
        = rr.playing_ids ++ [p]) := by
  refine ⟨fun hn => ?_, fun akr he => ?_, fun p e hent hp hpv => ?_⟩
  · simp [RrEmitter.post_event, hn]
  · cases hent : rr.entity <;> simp [RrEmitter.post_event, hent, he]
  · simp [RrEmitter.post_event, hent, hp, hpv]

/-- Closed witness for C8, on a registered emitter with one id already
playing: a successful post of id 9 appends and returns it, and a failed post
returns `AK_INVALID_PLAYING_ID` leaving the list unchanged. -/
theorem post_event_result_spec_witness :
    (({ RrEmitter.default with entity := some 7, playing_ids := [3]
        } : RrEmitter).post_event (.Name "Footstep") 0 none (.ok 9)).ret = 9 ∧
    (({ RrEmitter.default with entity := some 7, playing_ids := [3]
        } : RrEmitter).post_event (.Name "Footstep") 0 none
        (.ok 9)).playing_ids = [3, 9] ∧
    (({ RrEmitter.default with entity := some 7, playing_ids := [3]
        } : RrEmitter).post_event (.Name "Footstep") 0 none
        (.error .AK_Fail)).ret = AK_INVALID_PLAYING_ID ∧
    (RrEmitter.default.post_event (.Name "Footstep") 0 none
        (.ok 9)).ret = AK_INVALID_PLAYING_ID := by
  refine ⟨?_, ?_, ?_, ?_⟩
  · exact ((post_event_result_spec
      { RrEmitter.default with entity := some 7, playing_ids := [3] }
      (.Name "Footstep") 0 none (.ok 9)).2.2 9 7 rfl rfl (by decide)).1
  · exact ((post_event_result_spec
      { RrEmitter.default with entity := some 7, playing_ids := [3] }
      (.Name "Footstep") 0 none (.ok 9)).2.2 9 7 rfl rfl (by decide)).2.2
  · exact ((post_event_result_spec
      { RrEmitter.default with entity := some 7, playing_ids := [3] }
      (.Name "Footstep") 0 none (.error .AK_Fail)).2.1 .AK_Fail rfl).1
  · exact ((post_event_result_spec RrEmitter.default
      (.Name "Footstep") 0 none (.ok 9)).1 rfl).1

/-- C9: on a registered emitter, `post_event` with a non-zero callback flags
mask but no `CallbackChannel` still posts, but with the requested flags
dropped — the posted mask is exactly the internally added `AK_EndOfEvent`,
so no callback for the requested flags can ever reach the ECS event stream —
whereas with a channel the requested flags are kept (or-ed with
`AK_EndOfEvent`); by contrast `PostEventAtLocation::post` in the same
no-channel situation posts with the requested flags intact. -/
theorem post_event_flag_handling (rr : RrEmitter) (e : Nat)
    (he : rr.entity = some e) (event : AkID) (flags : Nat) (hf : 0 < flags)
    (sdk_post : Except AkResult Nat) (ch : CallbackChannel)
    (s : PostEventAtLocation) (sdk : Sdk)
    (hreg : sdk.register_result s.tmp_id = none)
    (hset : sdk.set_position_result s.tmp_id = none) :
    (rr.post_event event flags none sdk_post).calls
        = [.postEvent e event AK_EndOfEvent] ∧
    (rr.post_event event flags (some ch) sdk_post).calls
        = [.postEvent e event (flags ||| AK_EndOfEvent)] ∧
    ((s.withFlags flags).post none sdk).1
        = [.registerGameObj s.tmp_id, .setPosition s.tmp_id s.at_tfm,
            .postEvent s.tmp_id s.event_id flags, .unregisterObj s.tmp_id] := by
  refine ⟨?_, ?_, ?_⟩
  · cases sdk_post <;> simp [RrEmitter.post_event, he, hf]
  · cases sdk_post <;> simp [RrEmitter.post_event, he, hf]
  · simp [PostEventAtLocation.post, PostEventAtLocation.withFlags, hreg, hset]

/-- Closed witness for C9: a registered emitter posting with mask 4
(`AK_Duration`) and no channel posts with mask `AK_EndOfEvent` only, while
`PostEventAtLocation` set to the same mask posts it unchanged. -/
theorem post_event_flag_handling_witness :
    (({ RrEmitter.default with entity := some 2 } : RrEmitter).post_event
        (.ID 11) 4 none (.ok 1)).calls = [.postEvent 2 (.ID 11) AK_EndOfEvent] ∧
    (((PostEventAtLocation.new (.ID 11) 99
          (AkTransform.from_position ⟨0, 0, 0⟩)).withFlags 4).post none
        sdk_ok).1
      = [.registerGameObj 99,
          .setPosition 99 (AkTransform.from_position ⟨0, 0, 0⟩),
          .postEvent 99 (.ID 11) 4, .unregisterObj 99] := by
  have h := post_event_flag_handling { RrEmitter.default with entity := some 2 }
    2 rfl (.ID 11) 4 (by decide) (.ok 1) CallbackChannel.new
    (PostEventAtLocation.new (.ID 11) 99 (AkTransform.from_position ⟨0, 0, 0⟩))
    sdk_ok rfl rfl
  exact ⟨h.1, h.2.2⟩

/-- Membership in the folded `playing_ids` state is decided by the last
action of the trace that concerns the id (a generalisation over the starting
state, for the induction). -/
theorem mem_foldl_playing_ids (e : Nat) (event : AkID) (flags : Nat)
    (cb : Option CallbackChannel) (tr : List EmitterAction) (s : List Nat)
    (p : Nat) :
    p ∈ tr.foldl (playing_ids_step e event flags cb) s ↔
      (match last_touch tr p with
        | some a => is_ok_post a = true
        | none => p ∈ s) := by
  induction tr generalizing s with
  | nil => simp [last_touch]
  | cons a tr ih =>
    rw [List.foldl_cons, ih]
    cases h : last_touch tr p with
    | some b => simp [last_touch, h]
    | none =>
      simp only [last_touch, h]
      cases a with
      | post r =>
        cases r with
        | ok q =>
          by_cases hq : q = p
          · subst hq
            simp [playing_ids_step, RrEmitter.post_event, action_playing_id,
              is_ok_post]
          · simp [playing_ids_step, RrEmitter.post_event, action_playing_id,
              hq, Ne.symm hq]
        | error akr =>
          simp [playing_ids_step, RrEmitter.post_event, action_playing_id]
      | callback info =>
        cases info with
        | Event g q t =>
          by_cases ht : t = AK_EndOfEvent
          · subst ht
            by_cases hq : q = p
            · subst hq
              simp [playing_ids_step, end_of_event_callback,
                action_playing_id, is_ok_post, List.mem_filter]
            · simp [playing_ids_step, end_of_event_callback,
                action_playing_id, hq, Ne.symm hq, List.mem_filter]
          · simp [playing_ids_step, end_of_event_callback, action_playing_id,
              ht]
        | Other tag =>
          simp [playing_ids_step, end_of_event_callback, action_playing_id]

/-- C10: starting from `RrEmitter::default()` (empty list), after any trace
of posts and end-of-event callbacks an id is in `playing_ids` exactly when
the last action concerning it was a successful post — i.e. the list holds
exactly the ids of posted events that have not since received their
`AK_EndOfEvent` callback. Moreover every successful post appends the
returned id, the registered callback removes exactly the callback's
`playing_id` (and only on an `Event` callback whose type is
`AK_EndOfEvent`), and `is_playing()` holds iff the list is non-empty. -/
theorem playing_ids_invariant (e : Nat) (event : AkID) (flags : Nat)
    (cb : Option CallbackChannel) (tr : List EmitterAction) (p : Nat)
    (rr : RrEmitter) (ids : List Nat) (g q : Nat) :
    (p ∈ run_playing_ids e event flags cb tr ↔
      ∃ a, last_touch tr p = some a ∧ is_ok_post a = true) ∧
    playing_ids_step e event flags cb ids (.post (.ok q)) = ids ++ [q] ∧
    playing_ids_step e event flags cb ids
        (.callback (.Event g q AK_EndOfEvent))
      = ids.filter (fun p_id => p_id ≠ q) ∧
    (rr.is_playing = true ↔ rr.playing_ids ≠ []) := by
  refine ⟨?_, ?_, ?_, ?_⟩
  · rw [run_playing_ids, mem_foldl_playing_ids]
    cases h : last_touch tr p with
    | some a => simp [RrEmitter.default]
    | none => simp [RrEmitter.default]
  · simp [playing_ids_step, RrEmitter.post_event]
  · simp [playing_ids_step, end_of_event_callback]
  · simp [RrEmitter.is_playing, List.isEmpty_iff]

/-- The `PostEvent` call `post_event` makes (if any) addresses the emitter's
registered entity. -/
theorem post_event_calls_addressee (rr : RrEmitter) (e : Nat)
    (he : rr.entity = some e) (event : AkID) (flags : Nat)
    (cb : Option CallbackChannel) (sdk_post : Except AkResult Nat) :
    ∀ c ∈ (rr.post_event event flags cb sdk_post).calls,
      c.gameObj = some e := by
  intro c hc
  simp only [RrEmitter.post_event, he] at hc
  split at hc <;> (simp at hc; subst hc; rfl)

/-- Every SDK call the listener loop makes for a row addresses that row's
entity id. -/
theorem init_listener_calls_addressee (sdk : Sdk) (row : ListenerRow) :
    ∀ c ∈ (init_listener sdk row).1, c.gameObj = some row.entity := by
  intro c hc
  unfold init_listener at hc
  dsimp only at hc
  repeat' split at hc
  all_goals (simp at hc; rcases hc with rfl | rfl | rfl <;> rfl)

/-- Every SDK call the emitter loop makes for a row addresses that row's
entity id. -/
theorem init_emitter_calls_addressee (sdk : Sdk) (ch : CallbackChannel)
    (row : EmitterRow) :
    ∀ c ∈ (init_emitter sdk ch row).1, c.gameObj = some row.entity := by
  intro c hc
  unfold init_emitter at hc
  dsimp only at hc
  split at hc
  · simp at hc; subst hc; rfl
  · split at hc
    · simp at hc; rcases hc with rfl | rfl <;> rfl
    · split at hc
      · rw [List.mem_append] at hc
        rcases hc with hc | hc
        · simp at hc; rcases hc with rfl | rfl <;> rfl
        · exact post_event_calls_addressee _ row.entity rfl _ _ _ _ c hc
      · simp at hc; rcases hc with rfl | rfl <;> rfl

/-- Every call of the listener phase of `init_new_rr_objects` addresses the
entity of some queried listener. -/
theorem init_listener_phase_addressees (sdk : Sdk)
    (listeners : List ListenerRow) (c : SdkCall)
    (hc : c ∈ ((listeners.map (init_listener sdk)).map (·.1)).flatten) :
    ∃ l ∈ listeners, c.gameObj = some l.entity := by
  rw [List.mem_flatten] at hc
  obtain ⟨calls, hcalls, hmem⟩ := hc
  rw [List.mem_map] at hcalls
  obtain ⟨out, hout, rfl⟩ := hcalls
  rw [List.mem_map] at hout
  obtain ⟨row, hrow, rfl⟩ := hout
  exact ⟨row, hrow, init_listener_calls_addressee sdk row c hmem⟩

/-- Every call of the emitter phase of `init_new_rr_objects` addresses the
entity of some queried emitter. -/
theorem init_emitter_phase_addressees (sdk : Sdk) (ch : CallbackChannel)
    (emitters : List EmitterRow) (c : SdkCall)
    (hc : c ∈ ((emitters.map (init_emitter sdk ch)).map (·.1)).flatten) :
    ∃ m ∈ emitters, c.gameObj = some m.entity := by
  rw [List.mem_flatten] at hc
  obtain ⟨calls, hcalls, hmem⟩ := hc
  rw [List.mem_map] at hcalls
  obtain ⟨out, hout, rfl⟩ := hcalls
  rw [List.mem_map] at hout
  obtain ⟨row, hrow, rfl⟩ := hout
  exact ⟨row, hrow, init_emitter_calls_addressee sdk ch row c hmem⟩

/-- C5: in `init_new_rr_objects`, every SDK call addressed to a newly added
listener's entity — its registration in particular — precedes every SDK call
addressed to a newly added emitter's entity of the same frame — its
registration and any `auto_post` `PostEvent` included; so an emitter added
in the same frame as the first listener never posts before a listener
exists. -/
theorem init_registers_listeners_before_emitters (sdk : Sdk)
    (cb : CallbackChannel) (listeners : List ListenerRow)
    (emitters : List EmitterRow)
    (hdisj : ∀ l ∈ listeners, ∀ m ∈ emitters, l.entity ≠ m.entity)
    (i j : Nat)
    (hi : i < (init_new_rr_objects sdk cb listeners emitters).trace.length)
    (hj : j < (init_new_rr_objects sdk cb listeners emitters).trace.length)
    (hli : ∃ l ∈ listeners,
      ((init_new_rr_objects sdk cb listeners emitters).trace.get
        ⟨i, hi⟩).gameObj = some l.entity)
    (hmj : ∃ m ∈ emitters,
      ((init_new_rr_objects sdk cb listeners emitters).trace.get
        ⟨j, hj⟩).gameObj = some m.entity) :
    i < j := by
  set LT := ((listeners.map (init_listener sdk)).map (·.1)).flatten with hLT
  set ET := ((emitters.map (init_emitter sdk cb)).map (·.1)).flatten with hET
  have htr : (init_new_rr_objects sdk cb listeners emitters).trace = LT ++ ET := rfl
  have hlen : (init_new_rr_objects sdk cb listeners emitters).trace.length
      = LT.length + ET.length := by rw [htr, List.length_append]
  have hi' : i < LT.length := by
    by_contra hge
    push_neg at hge
    have hilen : i - LT.length < ET.length := by omega
    have hget : (init_new_rr_objects sdk cb listeners emitters).trace.get ⟨i, hi⟩
        = ET.get ⟨i - LT.length, hilen⟩ := by
      simp only [htr, List.get_eq_getElem]
      exact List.getElem_append_right hge
    obtain ⟨l, hl, hgl⟩ := hli
    rw [hget] at hgl
    obtain ⟨m, hm, hgm⟩ := init_emitter_phase_addressees sdk cb emitters _
      (List.get_mem ET _ hilen)
    rw [hgl] at hgm
    exact hdisj l hl m hm (Option.some.inj hgm)
  have hj' : LT.length ≤ j := by
    by_contra hlt
    push_neg at hlt
    have hget : (init_new_rr_objects sdk cb listeners emitters).trace.get ⟨j, hj⟩
        = LT.get ⟨j, hlt⟩ := by
      simp only [htr, List.get_eq_getElem]
      exact List.getElem_append_left hlt
    obtain ⟨m, hm, hgm⟩ := hmj
    rw [hget] at hgm
    obtain ⟨l, hl, hgl⟩ := init_listener_phase_addressees sdk listeners _
      (List.get_mem LT _ hlt)
    rw [hgm] at hgl
    exact hdisj l hl m hm (Option.some.inj hgl).symm
  omega

/-- Closed witness for C5: one default listener (entity 1) and one auto-post
emitter (entity 2) added the same frame, all SDK calls succeeding; the
listener's registration sits at index 0 of the trace and the emitter's at
index 3, so 0 < 3. -/
theorem init_registers_listeners_before_emitters_witness : (0 : Nat) < 3 :=
  init_registers_listeners_before_emitters sdk_ok CallbackChannel.new
    [listener_row_ex] [emitter_row_ex] (by decide) 0 3 (by decide) (by decide)
    (by decide) (by decide)

/-- Every `set_position` the loop of `update_rr_position` emits belongs to a
queried row and uses that row's stored entity id and converted transform. -/
theorem update_rr_position_loop_calls (sdk : Sdk) (rows : List PositionRow) :
    ∀ c ∈ (update_rr_position_loop sdk rows).1,
      ∃ r ∈ rows, c = .setPosition r.entity r.tfm.to_ak_transform := by
  induction rows with
  | nil => intro c hc; simp [update_rr_position_loop] at hc
  | cons row rest ih =>
    intro c hc
    unfold update_rr_position_loop at hc
    dsimp only at hc
    split at hc
    · simp at hc; subst hc; exact ⟨row, by simp⟩
    · simp only [List.mem_cons] at hc
      rcases hc with rfl | hc
      · exact ⟨row, by simp⟩
      · obtain ⟨r, hr, rfl⟩ := ih c hc
        exact ⟨r, by simp [hr]⟩

/-- C6: registration uses the entity's numeric id as the opaque game object
id — every SDK call `init_new_rr_objects` makes while processing a queried
listener or emitter row addresses that row's entity id, and the updated
component's `entity` field records that same id — and every later middleware
call for that entity reuses it: `RrEmitter::stop` emits `stop_all` on the
stored id, `post_event`'s `PostEvent` is addressed to it, and every
`set_position` of `update_rr_position` uses the id stored in the queried
component. -/
theorem game_object_id_is_entity_id (sdk : Sdk) (ch : CallbackChannel)
    (lrow : ListenerRow) (erow : EmitterRow) (rr : RrEmitter) (e : Nat)
    (event : AkID) (flags : Nat) (cbo : Option CallbackChannel)
    (sdk_post : Except AkResult Nat) (emitters listeners : List PositionRow) :
    (∀ c ∈ (init_listener sdk lrow).1, c.gameObj = some lrow.entity) ∧
    (init_listener sdk lrow).2.1.entity = some lrow.entity ∧
    (∀ c ∈ (init_emitter sdk ch erow).1, c.gameObj = some erow.entity) ∧
    (init_emitter sdk ch erow).2.1.entity = some erow.entity ∧
    (rr.entity = some e → rr.stop = [.stopAll (some e)]) ∧
    (rr.entity = some e →
      ∀ c ∈ (rr.post_event event flags cbo sdk_post).calls,
        c.gameObj = some e) ∧
    (∀ c ∈ (update_rr_position sdk emitters listeners).1,
      ∃ r, (r ∈ emitters ∨ r ∈ listeners) ∧
        c = .setPosition r.entity r.tfm.to_ak_transform) := by
  refine ⟨init_listener_calls_addressee sdk lrow, ?_,
    init_emitter_calls_addressee sdk ch erow, ?_, fun he => ?_,
    fun he => post_event_calls_addressee rr e he event flags cbo sdk_post,
    ?_⟩
  · unfold init_listener
    dsimp only
    repeat' split
    all_goals rfl
  · unfold init_emitter
    dsimp only
    repeat' split
    all_goals rfl
  · simp [RrEmitter.stop, he]
  · intro c hc
    unfold update_rr_position at hc
    dsimp only at hc
    split at hc
    · obtain ⟨r, hr, rfl⟩ := update_rr_position_loop_calls sdk _ c hc
      rw [List.mem_filter] at hr
      exact ⟨r, .inl hr.1, rfl⟩
    · rw [List.mem_append] at hc
      rcases hc with hc | hc
      · obtain ⟨r, hr, rfl⟩ := update_rr_position_loop_calls sdk _ c hc
        rw [List.mem_filter] at hr
        exact ⟨r, .inl hr.1, rfl⟩
      · obtain ⟨r, hr, rfl⟩ := update_rr_position_loop_calls sdk _ c hc
        rw [List.mem_filter] at hr
        exact ⟨r, .inr hr.1, rfl⟩

/-- Closed witness for C6: the registered listener component stores its
row's entity id, and `stop` on an emitter registered as entity 4 stops game
object 4. -/
theorem game_object_id_is_entity_id_witness :
    (init_listener sdk_ok listener_row_ex).2.1.entity
        = some listener_row_ex.entity ∧
    ({ RrEmitter.default with entity := some 4 } : RrEmitter).stop
        = [.stopAll (some 4)] := by
  have h := game_object_id_is_entity_id sdk_ok CallbackChannel.new
    listener_row_ex emitter_row_ex
    { RrEmitter.default with entity := some 4 } 4 (.ID 7) 0 none (.ok 1) [] []
  exact ⟨h.2.1, h.2.2.2.2.1 rfl⟩

/-- C7 counterexample: two registered emitters whose transforms both changed
this frame, but `set_position` fails on the first (entity 1). The system's
trace is the single failing call: entity 2 is registered with a changed
transform yet receives no `set_position` call that frame, because the `?`
operator aborted the loop — so the system does not call `set_position` for
exactly the registered, changed entities. -/
theorem update_rr_position_claim_counterexample :
    position_row_2.registered = true ∧ position_row_2.changed = true ∧
    (update_rr_position sdk_set_position_fails_on_1
        [position_row_1, position_row_2] []).1
      = [.setPosition 1 tfm0.to_ak_transform] ∧
    SdkCall.setPosition 2 tfm0.to_ak_transform ∉
      (update_rr_position sdk_set_position_fails_on_1
        [position_row_1, position_row_2] []).1 := by
  refine ⟨rfl, rfl, by decide, by decide⟩

/-- When every queried row's `set_position` succeeds, the loop emits exactly
one call per row, in order, and returns `Ok`. -/
theorem update_rr_position_loop_all_ok (sdk : Sdk) (rows : List PositionRow)
    (h : ∀ r ∈ rows, sdk.set_position_result r.entity = none) :
    update_rr_position_loop sdk rows
      = (rows.map (fun r => .setPosition r.entity r.tfm.to_ak_transform),
          .ok ()) := by
  induction rows with
  | nil => rfl
  | cons row rest ih =>
    have h1 := h row (List.mem_cons_self row rest)
    have h2 : ∀ r ∈ rest, sdk.set_position_result r.entity = none :=
      fun r hr => h r (List.mem_cons_of_mem row hr)
    simp [update_rr_position_loop, h1, ih h2]

/-- C7 amended: `update_rr_position` calls `set_position` with the converted
`GlobalTransform` only for registered entities whose transform changed
(unchanged or unregistered entities never cause a call), and when every such
call succeeds it calls it for exactly those entities, emitters then
listeners, in query order; but a failing `set_position` aborts the system
through `?`, so entities queried after the first failure get no call that
frame. -/
theorem update_rr_position_amended (sdk : Sdk)
    (emitters listeners : List PositionRow)
    (hoke : ∀ r ∈ emitters, r.registered = true → r.changed = true →
      sdk.set_position_result r.entity = none)
    (hokl : ∀ r ∈ listeners, r.registered = true → r.changed = true →
      sdk.set_position_result r.entity = none) :
    (update_rr_position sdk emitters listeners).1
      = (emitters.filter (fun r => r.registered && r.changed)).map
          (fun r => .setPosition r.entity r.tfm.to_ak_transform)
        ++ (listeners.filter (fun r => r.registered && r.changed)).map
          (fun r => .setPosition r.entity r.tfm.to_ak_transform) ∧
    (update_rr_position sdk emitters listeners).2 = .ok () ∧
    (∀ sdk2 : Sdk, ∀ c ∈ (update_rr_position sdk2 emitters listeners).1,
      ∃ r, (r ∈ emitters ∨ r ∈ listeners) ∧ r.registered = true ∧
        r.changed = true ∧
        c = .setPosition r.entity r.tfm.to_ak_transform) := by
  have hfe : ∀ r ∈ emitters.filter (fun r => r.registered && r.changed),
      sdk.set_position_result r.entity = none := by
    intro r hr
    rw [List.mem_filter] at hr
    obtain ⟨hreg, hch⟩ := Bool.and_eq_true_iff.mp hr.2
    exact hoke r hr.1 hreg hch
  have hfl : ∀ r ∈ listeners.filter (fun r => r.registered && r.changed),
      sdk.set_position_result r.entity = none := by
    intro r hr
    rw [List.mem_filter] at hr
    obtain ⟨hreg, hch⟩ := Bool.and_eq_true_iff.mp hr.2
    exact hokl r hr.1 hreg hch
  refine ⟨?_, ?_, ?_⟩
  · unfold update_rr_position
    dsimp only
    rw [update_rr_position_loop_all_ok sdk _ hfe,
      update_rr_position_loop_all_ok sdk _ hfl]
  · unfold update_rr_position
    dsimp only
    rw [update_rr_position_loop_all_ok sdk _ hfe,
      update_rr_position_loop_all_ok sdk _ hfl]
  · intro sdk2 c hc
    unfold update_rr_position at hc
    dsimp only at hc
    have hof : ∀ (rows : List PositionRow)
        (hmem : c ∈ (update_rr_position_loop sdk2
          (rows.filter (fun r => r.registered && r.changed))).1),
        ∃ r, r ∈ rows ∧ r.registered = true ∧ r.changed = true ∧
          c = .setPosition r.entity r.tfm.to_ak_transform := by
      intro rows hmem
      obtain ⟨r, hr, rfl⟩ := update_rr_position_loop_calls sdk2 _ c hmem
      rw [List.mem_filter] at hr
      obtain ⟨hreg, hch⟩ := Bool.and_eq_true_iff.mp hr.2
      exact ⟨r, hr.1, hreg, hch, rfl⟩
    split at hc
    · obtain ⟨r, hr, hreg, hch, rfl⟩ := hof emitters hc
      exact ⟨r, .inl hr, hreg, hch, rfl⟩
    · rw [List.mem_append] at hc
      rcases hc with hc | hc
      · obtain ⟨r, hr, hreg, hch, rfl⟩ := hof emitters hc
        exact ⟨r, .inl hr, hreg, hch, rfl⟩
      · obtain ⟨r, hr, hreg, hch, rfl⟩ := hof listeners hc
        exact ⟨r, .inr hr, hreg, hch, rfl⟩

/-- Closed witness for C7's amended statement: with every call succeeding,
one registered changed emitter (entity 1) and one registered changed
listener (entity 2) get exactly one `set_position` each, in order. -/
theorem update_rr_position_amended_witness :
    (update_rr_position sdk_ok [position_row_1] [position_row_2]).1
      = [.setPosition 1 tfm0.to_ak_transform,
          .setPosition 2 tfm0.to_ak_transform] := by
  have h := update_rr_position_amended sdk_ok [position_row_1]
    [position_row_2] (by decide) (by decide)
  rw [h.1]
  decide

/-- C4 counterexample: `RrEmitter::post_event` on a registered emitter whose
SDK post fails returns the fixed sentinel `AK_INVALID_PLAYING_ID` whatever
the SDK's error code was (`AK_Fail` and `AK_InsufficientMemory` yield the
same result, so the code is not propagated as the failure result), and
`init_new_rr_objects` with a failing registration logs, skips the remaining
steps for that entity (no `set_position`, no auto post, no `RrRegistered`)
and still returns `Ok(())`. -/
theorem error_propagation_claim_counterexample :
    (({ RrEmitter.default with entity := some 5 } : RrEmitter).post_event
        (.Name "Explosion") 0 none (.error .AK_Fail)).ret
      = AK_INVALID_PLAYING_ID ∧
    (({ RrEmitter.default with entity := some 5 } : RrEmitter).post_event
        (.Name "Explosion") 0 none (.error .AK_InsufficientMemory)).ret
      = AK_INVALID_PLAYING_ID ∧
    (init_new_rr_objects sdk_register_fails CallbackChannel.new
        [] [emitter_row_ex]).result = .ok () ∧
    (init_new_rr_objects sdk_register_fails CallbackChannel.new
        [] [emitter_row_ex]).trace = [.registerObj 2 "RrEmitter_2"] ∧
    (init_new_rr_objects sdk_register_fails CallbackChannel.new
        [] [emitter_row_ex]).emitters
      = [({ emitter_row_ex.rr with entity := some 2 }, false)] := by
  refine ⟨rfl, rfl, rfl, by decide, by decide⟩

/-- A loop of `update_rr_position` only fails with an error code the SDK
itself returned for one of its rows. -/
theorem update_rr_position_loop_error (sdk : Sdk) (rows : List PositionRow)
    (akr : AkResult)
    (h : (update_rr_position_loop sdk rows).2 = .error akr) :
    ∃ r ∈ rows, sdk.set_position_result r.entity = some akr := by
  induction rows with
  | nil => simp [update_rr_position_loop] at h
  | cons row rest ih =>
    unfold update_rr_position_loop at h
    dsimp only at h
    split at h
    · simp only [Except.error.injEq] at h
      subst h
      exact ⟨row, List.mem_cons_self row rest, by assumption⟩
    · obtain ⟨r, hr, hres⟩ := ih h
      exact ⟨r, List.mem_cons_of_mem row hr, hres⟩

/-- C4 amended: the systems piped into `error_handler` log the SDK's
`AkResult` unchanged, and an `Err` surfacing from `update_rr_position` is
exactly an error code the SDK returned for one of the queried rows; but
`RrEmitter::post_event` performs additional failure handling — it
substitutes `AK_INVALID_PLAYING_ID` for every SDK failure instead of
surfacing the `AkResult` — and `init_new_rr_objects` logs each failure,
skips that entity's remaining registration steps, and always returns
`Ok(())`. -/
theorem error_propagation_amended (akr : AkResult) (sdk : Sdk)
    (emitters listeners : List PositionRow) (rr : RrEmitter) (event : AkID)
    (flags : Nat) (cbo : Option CallbackChannel) (ch : CallbackChannel)
    (lrows : List ListenerRow) (erows : List EmitterRow) :
    error_handler (.error akr) = some akr ∧
    error_handler (.ok ()) = none ∧
    ((update_rr_position sdk emitters listeners).2 = .error akr →
      ∃ r, (r ∈ emitters ∨ r ∈ listeners) ∧ r.registered = true ∧
        r.changed = true ∧ sdk.set_position_result r.entity = some akr) ∧
    (rr.entity ≠ none →
      (rr.post_event event flags cbo (.error akr)).ret
        = AK_INVALID_PLAYING_ID) ∧
    (init_new_rr_objects sdk ch lrows erows).result = .ok () := by
  refine ⟨rfl, rfl, ?_, ?_, rfl⟩
  · intro h
    unfold update_rr_position at h
    dsimp only at h
    have hof : ∀ (rows : List PositionRow),
        (∃ r ∈ rows.filter (fun r => r.registered && r.changed),
          sdk.set_position_result r.entity = some akr) →
        ∃ r, r ∈ rows ∧ r.registered = true ∧ r.changed = true ∧
          sdk.set_position_result r.entity = some akr := by
      rintro rows ⟨r, hr, hres⟩
      rw [List.mem_filter] at hr
      obtain ⟨hreg, hch⟩ := Bool.and_eq_true_iff.mp hr.2
      exact ⟨r, hr.1, hreg, hch, hres⟩
    split at h
    · simp only [Except.error.injEq] at h
      subst h
      obtain ⟨r, hr, hreg, hch, hres⟩ := hof emitters
        (update_rr_position_loop_error sdk _ _ (by assumption))
      exact ⟨r, .inl hr, hreg, hch, hres⟩
    · obtain ⟨r, hr, hreg, hch, hres⟩ := hof listeners
        (update_rr_position_loop_error sdk _ _ h)
      exact ⟨r, .inr hr, hreg, hch, hres⟩
  · intro hne
    cases hent : rr.entity with
    | none => exact absurd hent hne
    | some e => simp [RrEmitter.post_event, hent]

/-- Closed witness for C4's amended statement: `error_handler` logs
`AK_Fail` unchanged and a failing post on a registered emitter returns
`AK_INVALID_PLAYING_ID`. -/
theorem error_propagation_amended_witness :
    error_handler (.error .AK_Fail) = some .AK_Fail ∧
    (({ RrEmitter.default with entity := some 5 } : RrEmitter).post_event
        (.Name "Explosion") 0 none (.error .AK_Fail)).ret
      = AK_INVALID_PLAYING_ID := by
  have h := error_propagation_amended .AK_Fail sdk_ok [] []
    { RrEmitter.default with entity := some 5 } (.Name "Explosion") 0 none
    CallbackChannel.new [] []
  exact ⟨h.1, h.2.2.2.1 (by decide)⟩

/-- Closed witness for C3: of two registered despawn-on-silent emitters,
the silent one (entity 3) is despawned and the one still playing id 8
(entity 4) is not. -/
theorem despawn_silent_emitters_spec_witness :
    3 ∈ despawn_silent_emitters
        [⟨{ RrEmitter.default with
            entity := some 3
            despawn_on_silent := true }, true⟩,
          ⟨{ RrEmitter.default with
            entity := some 4
            despawn_on_silent := true
            playing_ids := [8] }, true⟩] ∧
    4 ∉ despawn_silent_emitters
        [⟨{ RrEmitter.default with
            entity := some 3
            despawn_on_silent := true }, true⟩,
          ⟨{ RrEmitter.default with
            entity := some 4
            despawn_on_silent := true
            playing_ids := [8] }, true⟩] := by
  constructor
  · exact (despawn_silent_emitters_spec _ (by decide) 3).mpr (by decide)
  · intro h
    exact absurd ((despawn_silent_emitters_spec _ (by decide) 4).mp h)
      (by decide)

end BevyRrise
